import Mathlib

/-!
# AssetGuard: authentication layer and asset form gate

A shallow embedding of `src/auth.js` (register / login handlers and the
`authenticateToken` middleware) and of `saveAsset` from `src/js/script.js`.

JavaScript values are modelled as follows: a value that is either `undefined`
or a string is an `Option String`; a callback-style handler becomes a pure
function returning everything the handler did (responses written, calls made,
new store).
-/

set_option autoImplicit false

namespace AssetGuard

/-! ## JavaScript string helpers -/

/-- The method `String.prototype.split(' ')` on the characters of a string: the input is
cut at every single space character, so `n` spaces give `n + 1` fields (some
possibly empty). -/
def splitSpace : List Char → List (List Char)
  | [] => [[]]
  | c :: cs =>
    if c = ' ' then [] :: splitSpace cs
    else
      match splitSpace cs with
      | [] => [[c]]
      | f :: fs => (c :: f) :: fs

/-- The call `s.split(' ')` on strings. -/
def jsSplitSpace (s : String) : List String :=
  (splitSpace s.data).map String.mk

/-- JavaScript truthiness of a value that is `undefined` or a string. -/
def truthy : Option String → Bool
  | none => false
  | some s => decide (s ≠ "")

/-! ## HTTP responses -/

/-- JSON bodies written by the handlers of `src/auth.js`. -/
inductive Body where
  | error (msg : String)
  | message (msg : String)
  | session (token : String) (username : String)
  deriving DecidableEq, Repr

/-- One `res.status(..).json(..)` call (`res.json` alone keeps status 200). -/
structure Response where
  status : Nat
  body : Body
  deriving DecidableEq, Repr

/-! ## `authenticateToken` (src/auth.js, lines 46-57) -/

/-- The signing key literal of `src/auth.js`. -/
def SECRET : String := "your-secret-key"

/-- The expression `authHeader && authHeader.split(' ')[1]`: `undefined` for an absent header,
the empty string itself for an empty header, the second field otherwise. -/
def extractToken (authHeader : Option String) : Option String :=
  match authHeader with
  | none => none
  | some h => if h = "" then some "" else (jsSplitSpace h)[1]?

/-- Everything `authenticateToken` did for one request. -/
structure AuthOutcome (P : Type) where
  /-- responses written with `res.status(..).json(..)` -/
  responses : List Response
  /-- value of `req.user` afterwards -/
  user : Option P
  /-- number of calls of `next` -/
  nextCalls : Nat
  /-- arguments `(token, key)` of the calls of `jwt.verify` -/
  verifyCalls : List (String × String)
  deriving DecidableEq, Repr

/-- Outcome of the `if (!token) return res.status(401)...` branch. -/
def accessDenied {P : Type} : AuthOutcome P :=
  { responses := [⟨401, .error "Access denied"⟩], user := none, nextCalls := 0, verifyCalls := [] }

/-- Outcome of the `if (err) return res.status(403)...` branch. -/
def invalidToken {P : Type} (token : String) : AuthOutcome P :=
  { responses := [⟨403, .error "Invalid token"⟩], user := none, nextCalls := 0,
    verifyCalls := [(token, SECRET)] }

/-- Outcome of the success branch: `req.user = user; next()`. -/
def authorized {P : Type} (token : String) (user : P) : AuthOutcome P :=
  { responses := [], user := some user, nextCalls := 1, verifyCalls := [(token, SECRET)] }

/-- The middleware. `verify token key` is the result `jwt.verify` hands to its
callback (`.error` for a non-null `err`, `.ok user` otherwise). -/
def authenticateToken {E P : Type} (verify : String → String → Except E P)
    (authHeader : Option String) : AuthOutcome P :=
  let token := extractToken authHeader
  if !truthy token then accessDenied
  else
    match token with
    | none => accessDenied
    | some t =>
      match verify t SECRET with
      | .error _ => invalidToken t
      | .ok user => authorized t user

/-! ## Reading of the token rule in the specification -/

/-- ECMAScript white space and line terminators (the class `\s`). -/
def isWhitespace (c : Char) : Bool :=
  c = ' ' || c = '\t' || c = '\n' || c = '\r' || c.toNat = 0x0B || c.toNat = 0x0C ||
  c.toNat = 0xA0 || c.toNat = 0x1680 || (0x2000 ≤ c.toNat && c.toNat ≤ 0x200A) ||
  c.toNat = 0x2028 || c.toNat = 0x2029 || c.toNat = 0x202F || c.toNat = 0x205F ||
  c.toNat = 0x3000 || c.toNat = 0xFEFF

/-- Fields of a string separated by runs of white space; `inRun` records that
the previous character was white space. -/
def whitespaceFieldsAux : Bool → List Char → List (List Char)
  | _, [] => [[]]
  | inRun, c :: cs =>
    if isWhitespace c then
      if inRun then whitespaceFieldsAux true cs else [] :: whitespaceFieldsAux true cs
    else
      match whitespaceFieldsAux false cs with
      | [] => [[c]]
      | f :: fs => (c :: f) :: fs

/-- The specification's wording of token extraction: split on white space
(any run of white space is one separator) and take the second field. -/
def specSecondField (h : String) : Option String :=
  ((whitespaceFieldsAux false h.data).map String.mk)[1]?

/-! ## The `users` table (src/auth.js, lines 6-12) -/

/-- One row of `users`. -/
structure UserRow where
  id : Nat
  username : String
  password : String
  role : String
  created_at : Nat
  deriving DecidableEq, Repr

/-- The table together with the AUTOINCREMENT high-water mark. -/
structure Db where
  rows : List UserRow
  seq : Nat
  deriving DecidableEq, Repr

/-- Message of the storage error raised by `username TEXT UNIQUE`. -/
def uniqueViolation : String := "SQLITE_CONSTRAINT: UNIQUE constraint failed: users.username"

/-- The id AUTOINCREMENT assigns next: one more than every id in use or used before. -/
def Db.nextId (db : Db) : Nat :=
  (db.rows.foldl (fun m r => max m r.id) db.seq) + 1

/-- The query `SELECT * FROM users WHERE username = ?` through `db.get`: the callback gets
`err` (here `.error`) when the storage engine fails (`fault`), otherwise the
first matching row or `undefined`. -/
def Db.getUser (db : Db) (fault : Option String) (username : String) :
    Except String (Option UserRow) :=
  match fault with
  | some msg => .error msg
  | none => .ok (db.rows.find? (fun r => decide (r.username = username)))

/-- The statement `INSERT INTO users (username, password) VALUES (?, ?)` through `db.run`:
`role` and `created_at` take their defaults, `id` is assigned by AUTOINCREMENT,
and the statement fails as a whole on a storage fault or a duplicate username. -/
def Db.insertUser (db : Db) (fault : Option String) (now : Nat) (username password : String) :
    Except String Db :=
  match fault with
  | some msg => .error msg
  | none =>
    if db.rows.any (fun r => decide (r.username = username)) then .error uniqueViolation
    else
      .ok { rows := db.rows ++ [{ id := db.nextId, username := username, password := password,
                                  role := "user", created_at := now }],
            seq := db.nextId }

/-! ## Libraries used by the handlers -/

/-- The two functions of `bcryptjs` on well-typed (string) arguments. -/
structure Bcrypt where
  hash : String → Nat → String
  compare : String → String → Bool

/-- The call `await bcrypt.hash(s, rounds)` for a value `s` taken from the request body:
the promise is rejected unless `s` is a string. -/
def Bcrypt.hashValue (bc : Bcrypt) (s : Option String) (rounds : Nat) : Except String String :=
  match s with
  | none => .error "Illegal arguments: undefined, number"
  | some s => .ok (bc.hash s rounds)

/-- The call `await bcrypt.compare(s, hash)`: rejected unless `s` is a string. -/
def Bcrypt.compareValue (bc : Bcrypt) (s : Option String) (hash : String) : Except String Bool :=
  match s with
  | none => .error "Illegal arguments: undefined, string"
  | some s => .ok (bc.compare s hash)

/-- The object handed to `jwt.sign` by the login handler. -/
structure TokenPayload where
  id : Nat
  username : String
  deriving DecidableEq, Repr

/-- The claims of a session token: the payload plus issued-at and expiry (seconds). -/
structure Claims where
  id : Nat
  username : String
  iat : Nat
  exp : Nat
  deriving DecidableEq, Repr

/-- The two ways `jwt.verify` fails. -/
inductive JwtError where
  | invalid
  | expired
  deriving DecidableEq, Repr

/-- The interface of `jsonwebtoken` as the handlers use it: `sign payload key expiresIn`
(throws, here `.error`, on a malformed option) and `verify token key`. -/
structure Jwt where
  sign : TokenPayload → String → String → Except String String
  verify : String → String → Except JwtError Claims

/-- Serialisation and signature of claims under a key: `decode` returns the claims
of a token whose signature checks under the key. -/
structure Codec where
  encode : Claims → String → String
  decode : String → String → Option Claims

/-- Seconds in one unit of a time span. -/
def unitSeconds : Char → Option Nat
  | 's' => some 1
  | 'm' => some 60
  | 'h' => some 3600
  | 'd' => some 86400
  | _ => none

/-- Value of a list of decimal digits, most significant first. -/
def digitsValue (ds : List Char) : Option Nat :=
  if ds = [] then none
  else ds.foldl (fun acc c => acc.bind fun n => if c.isDigit then some (n * 10 + (c.toNat - 48)) else none)
    (some 0)

/-- Modelled from the spec: the time span option of `jsonwebtoken` (library code,
not under src/); a decimal count followed by one of the units `s`, `m`, `h`, `d`,
in seconds. The spec fixes the login span at 24 hours. -/
def timespanSeconds (span : String) : Option Nat :=
  match span.data.reverse with
  | [] => none
  | u :: ds =>
    match unitSeconds u, digitsValue ds.reverse with
    | some k, some n => some (n * k)
    | _, _ => none

/-- Modelled from the spec: `jsonwebtoken` (library code, not under src/) at clock
time `now` (seconds). `sign` embeds the payload with issued-at `now` and expiry
`now` plus the span; `verify` fails when the signature does not verify or the
token is expired, and returns the claims otherwise. -/
def jsonwebtoken (codec : Codec) (now : Nat) : Jwt where
  sign := fun payload key expiresIn =>
    match timespanSeconds expiresIn with
    | none => .error "expiresIn should be a number of seconds or string representing a timespan"
    | some ttl =>
      .ok (codec.encode { id := payload.id, username := payload.username, iat := now,
                          exp := now + ttl } key)
  verify := fun token key =>
    match codec.decode token key with
    | none => .error .invalid
    | some c => if c.exp ≤ now then .error .expired else .ok c

/-! ## Register and login handlers (src/auth.js, lines 15-43) -/

/-- The fields `{ username, password }` read from `req.body`; `password` may be missing. -/
structure Credentials where
  username : String
  password : Option String
  deriving DecidableEq, Repr

/-- What the register handler did: responses written and the table afterwards. -/
structure RegisterOutcome where
  responses : List Response
  db : Db
  deriving DecidableEq, Repr

/-- The handler `app.post('/api/register', ...)`. A rejected `await bcrypt.hash` leaves the
handler before anything is written. -/
def register (bc : Bcrypt) (fault : Option String) (now : Nat) (db : Db) (req : Credentials) :
    RegisterOutcome :=
  match bc.hashValue req.password 10 with
  | .error _ => { responses := [], db := db }
  | .ok hashedPassword =>
    match db.insertUser fault now req.username hashedPassword with
    | .error msg => { responses := [⟨500, .error msg⟩], db := db }
    | .ok db1 => { responses := [⟨200, .message "User registered successfully"⟩], db := db1 }

/-- What the login handler did: responses written and the arguments of its
calls of `jwt.sign`. -/
structure LoginOutcome where
  responses : List Response
  signCalls : List (TokenPayload × String × String)
  deriving DecidableEq, Repr

/-- The handler `app.post('/api/login', ...)`. The callback of `db.get` is an async function
run by the storage driver: a rejected `await bcrypt.compare` or a throwing
`jwt.sign` ends it with nothing written. -/
def login (bc : Bcrypt) (jwt : Jwt) (fault : Option String) (db : Db) (req : Credentials) :
    LoginOutcome :=
  match db.getUser fault req.username with
  | .error msg => { responses := [⟨500, .error msg⟩], signCalls := [] }
  | .ok none => { responses := [⟨401, .error "Invalid credentials"⟩], signCalls := [] }
  | .ok (some user) =>
    match bc.compareValue req.password user.password with
    | .error _ => { responses := [], signCalls := [] }
    | .ok false => { responses := [⟨401, .error "Invalid credentials"⟩], signCalls := [] }
    | .ok true =>
      let call : TokenPayload × String × String := (⟨user.id, user.username⟩, SECRET, "24h")
      match jwt.sign ⟨user.id, user.username⟩ SECRET "24h" with
      | .error _ => { responses := [], signCalls := [call] }
      | .ok token => { responses := [⟨200, .session token user.username⟩], signCalls := [call] }

/-! ## `saveAsset` and `fetchAssets` (src/js/script.js, lines 64-155) -/

/-- The method `String.prototype.trim`: white space and line terminators are removed
from both ends. -/
def jsTrim (s : String) : String :=
  String.mk ((s.data.dropWhile isWhitespace).reverse.dropWhile isWhitespace).reverse

/-- An asset as returned by the server; `id` is the server-side key. -/
structure Asset where
  id : Nat
  asset_id : String
  name : String
  serial : String
  deriving DecidableEq, Repr

/-- Values of the fields of the asset form; `photo` is the selected file, if any. -/
structure Form where
  assetId : String
  assetName : String
  serial : String
  type : String
  user : String
  dept : String
  status : String
  warranty : String
  photo : Option String
  deriving DecidableEq, Repr

/-- HTTP methods used by the page. -/
inductive Method where
  | GET
  | POST
  | PUT
  deriving DecidableEq, Repr

/-- Targets under `API_URL`: `/assets`, `/assets/<id>` and `/assets?search=<text>`. -/
inductive Target where
  | assets
  | asset (id : Nat)
  | assetsSearch (search : String)
  deriving DecidableEq, Repr

/-- One call of `fetch`: method, target and the entries of the `FormData` body. -/
structure Request where
  method : Method
  target : Target
  body : List (String × String)
  deriving DecidableEq, Repr

/-- The state of the page. `initialised` tells whether the top-level code of
`script.js` ran through lines 40-44 (`const API_URL`, `let editIndex`,
`let currentAssets`); it did not when line 7, `require('express')`, threw, as in a
browser without `require`, and the three bindings then stay uninitialised, so that
reading any of them throws and `editIndex` and `currentAssets` below are never read.
The functions themselves are hoisted declarations and can be called either way.
`currentAssets` is an array of asset objects. `modalHidden` is the `hidden` class
of the modal. -/
structure Page where
  initialised : Bool
  editIndex : Int
  currentAssets : List Asset
  modalHidden : Bool
  deriving DecidableEq, Repr

/-- The value `await response.json()` yields for the reply to a save request: the JSON
value `null`, on which reading a property throws, or any other value, with its
`message` and `error` properties (`none` when absent). -/
inductive ReplyJson where
  | null
  | value (message : Option String) (error : Option String)
  deriving DecidableEq, Repr

/-- How the `fetch` of `saveAsset` ends: it throws, or a response arrives with its
`ok` flag and its body (`none` when `response.json()` fails). -/
inductive SaveReply where
  | networkError
  | reply (ok : Bool) (json : Option ReplyJson)
  deriving DecidableEq, Repr

/-- How the `fetch` of `fetchAssets` ends. -/
inductive ListReply where
  | networkError
  | reply (ok : Bool) (json : Option (List Asset))
  deriving DecidableEq, Repr

/-- What the page cannot decide: the value of the search box and the server's replies. -/
structure Env where
  search : String
  saveReply : SaveReply
  listReply : ListReply
  deriving DecidableEq, Repr

/-- Everything `saveAsset` did. -/
structure SaveOutcome where
  requests : List Request
  alerts : List String
  page : Page
  deriving DecidableEq, Repr

/-- The element `currentAssets[editIndex]`, `undefined` outside the array. -/
def Page.editedAsset (page : Page) : Option Asset :=
  if 0 ≤ page.editIndex then page.currentAssets[page.editIndex.toNat]? else none

/-- The function `fetchAssets`: one GET, and `currentAssets` replaced when the reply is ok
and parses. With `API_URL` uninitialised the URL cannot be built: the `catch` block runs
and nothing is requested. -/
def fetchAssets (env : Env) (page : Page) : List Request × Page :=
  if !page.initialised then ([], page)
  else
    let req : Request := ⟨.GET, .assetsSearch env.search, []⟩
    match env.listReply with
    | .reply true (some assets) => ([req], { page with currentAssets := assets })
    | _ => ([req], page)

/-- The alert that reports missing required fields. -/
def requiredAlert : String :=
  "Please fill in all required fields (Asset ID, Name, and Serial Number)"

/-- The alert of the `catch` block. -/
def failedAlert : String := "Failed to save asset. Check console for details."

/-- The request `saveAsset` builds once the form passed validation. -/
def saveRequest (form : Form) (page : Page) : Request :=
  let body : List (String × String) :=
    [("asset_id", jsTrim form.assetId), ("name", jsTrim form.assetName),
     ("serial", jsTrim form.serial), ("type", form.type), ("assigned_to", jsTrim form.user),
     ("department", form.dept), ("status", form.status), ("warranty_date", form.warranty)] ++
    (match form.photo with
     | some file => [("photo", file)]
     | none => [])
  if page.editIndex ≠ -1 then
    match page.editedAsset with
    | some asset => ⟨.PUT, .asset asset.id, body⟩
    | none => ⟨.POST, .assets, body⟩
  else ⟨.POST, .assets, body⟩

/-- The function `saveAsset`. Everything from `let url = API_URL + '/assets'` on is
inside `try`: an uninitialised `API_URL`, a failing `fetch`, a failing
`response.json()` and a property read on `null` all end in the `catch` block. -/
def saveAsset (env : Env) (form : Form) (page : Page) : SaveOutcome :=
  if jsTrim form.assetId = "" ∨ jsTrim form.assetName = "" ∨ jsTrim form.serial = "" then
    { requests := [], alerts := [requiredAlert], page := page }
  else if !page.initialised then
    { requests := [], alerts := [failedAlert], page := page }
  else
    let req := saveRequest form page
    match env.saveReply with
    | .networkError => { requests := [req], alerts := [failedAlert], page := page }
    | .reply _ none => { requests := [req], alerts := [failedAlert], page := page }
    | .reply _ (some .null) => { requests := [req], alerts := [failedAlert], page := page }
    | .reply true (some (.value message _)) =>
      let text :=
        if truthy message then message.getD ""
        else if page.editIndex = -1 then "Asset added successfully!"
        else "Asset updated successfully!"
      let refreshed := fetchAssets env { page with modalHidden := true }
      { requests := req :: refreshed.1, alerts := [text], page := refreshed.2 }
    | .reply false (some (.value _ error)) =>
      let text := "Error: " ++ (if truthy error then error.getD "" else "Failed to save asset")
      { requests := [req], alerts := [text], page := page }

/-! ## Sample library instances

Small executable instances of the library interfaces, used to run the handlers on
concrete requests. -/

/-- A stand-in for `bcryptjs`: the hash is the secret behind a fixed marker. -/
def sampleBcrypt : Bcrypt where
  hash := fun s _ => "$2a$10$" ++ s
  compare := fun s h => decide (h = "$2a$10$" ++ s)

/-- Cut a list of characters at every dot. -/
def splitDot : List Char → List (List Char)
  | [] => [[]]
  | c :: cs =>
    if c = '.' then [] :: splitDot cs
    else
      match splitDot cs with
      | [] => [[c]]
      | f :: fs => (c :: f) :: fs

/-- A stand-in for the token format: the claims in decimal, then the key, joined by dots. -/
def sampleCodec : Codec where
  encode := fun c key =>
    String.mk (Nat.toDigits 10 c.id) ++ "." ++ c.username ++ "." ++
      String.mk (Nat.toDigits 10 c.iat) ++ "." ++ String.mk (Nat.toDigits 10 c.exp) ++ "." ++ key
  decode := fun token key =>
    match splitDot token.data with
    | [i, u, a, e, k] =>
      if String.mk k = key then
        match digitsValue i, digitsValue a, digitsValue e with
        | some i, some a, some e => some ⟨i, String.mk u, a, e⟩
        | _, _, _ => none
      else none
    | _ => none

/-- A table holding the single user `alice`, registered through `sampleBcrypt`. -/
def sampleDb : Db :=
  { rows := [{ id := 1, username := "alice", password := "$2a$10$hunter2", role := "user",
               created_at := 50 }],
    seq := 1 }

/-! ## Facts about `split(' ')` -/

theorem splitSpace_ne_nil (l : List Char) : splitSpace l ≠ [] := by
  cases l with
  | nil => simp [splitSpace]
  | cons c cs =>
    unfold splitSpace
    split
    · simp
    · split <;> simp

/-- A string without a space is its own single field. -/
theorem splitSpace_of_no_space (l : List Char) (h : ' ' ∉ l) : splitSpace l = [l] := by
  induction l with
  | nil => rfl
  | cons c cs ih =>
    have hc : c ≠ ' ' := fun e => h (by simp [e])
    have hcs : ' ' ∉ cs := fun e => h (by simp [e])
    simp [splitSpace, hc, ih hcs]

/-- Splitting cuts at the first space: a space-free front part is the first field. -/
theorem splitSpace_append_space (a rest : List Char) (h : ' ' ∉ a) :
    splitSpace (a ++ ' ' :: rest) = a :: splitSpace rest := by
  induction a with
  | nil => simp [splitSpace]
  | cons c cs ih =>
    have hc : c ≠ ' ' := fun e => h (by simp [e])
    have hcs : ' ' ∉ cs := fun e => h (by simp [e])
    simp [splitSpace, hc, ih hcs]

/-- The first field of `t ++ r` is `t` when `t` has no space and `r` is empty or
starts with a space. -/
theorem splitSpace_head (t r : List Char) (ht : ' ' ∉ t) (hr : r = [] ∨ r.head? = some ' ') :
    (splitSpace (t ++ r)).head? = some t := by
  rcases hr with hr | hr
  · subst hr
    simp [splitSpace_of_no_space t ht]
  · cases r with
    | nil => simp at hr
    | cons c cs =>
      simp at hr
      subst hr
      simp [splitSpace_append_space t cs ht]

/-- The second field of `a ++ " " ++ t ++ r`. -/
theorem jsSplitSpace_second (a t r : String) (ha : ' ' ∉ a.data) (ht : ' ' ∉ t.data)
    (hr : r = "" ∨ r.data.head? = some ' ') :
    (jsSplitSpace (a ++ " " ++ t ++ r))[1]? = some t := by
  have hr2 : r.data = [] ∨ r.data.head? = some ' ' := by
    rcases hr with hr | hr
    · left; subst hr; rfl
    · right; exact hr
  have hd : (a ++ " " ++ t ++ r).data = a.data ++ ' ' :: (t.data ++ r.data) := by
    simp [String.data_append]
  have hh := splitSpace_head t.data r.data ht hr2
  unfold jsSplitSpace
  rw [hd, splitSpace_append_space _ _ ha]
  cases hs : splitSpace (t.data ++ r.data) with
  | nil => exact absurd hs (splitSpace_ne_nil _)
  | cons f fs =>
    rw [hs] at hh
    simp at hh
    subst hh
    simp

theorem append_space_ne_empty (a r : String) : a ++ " " ++ r ≠ "" := by
  intro h
  have := congrArg String.data h
  simp [String.data_append] at this

/-- The value extracted from a header `a ++ " " ++ t ++ r` is its second field `t`. -/
theorem extractToken_fields (a t r : String) (ha : ' ' ∉ a.data) (ht : ' ' ∉ t.data)
    (hr : r = "" ∨ r.data.head? = some ' ') :
    extractToken (some (a ++ " " ++ t ++ r)) = some t := by
  have h2 := jsSplitSpace_second a t r ha ht hr
  have hne : a ++ " " ++ t ++ r ≠ "" := by
    have e : a ++ " " ++ t ++ r = a ++ " " ++ (t ++ r) := by simp [String.append_assoc]
    rw [e]
    exact append_space_ne_empty _ _
  simp only [extractToken, hne, if_false, h2]

/-- The value extracted from `Bearer T` is `T` when `T` has no space. -/
theorem extractToken_bearer (T : String) (hns : ' ' ∉ T.data) :
    extractToken (some ("Bearer " ++ T)) = some T := by
  have e : "Bearer " ++ T = "Bearer" ++ " " ++ T ++ "" := by
    apply String.ext
    simp [String.data_append]
  rw [e]
  exact extractToken_fields "Bearer" T "" (by decide) hns (Or.inl rfl)

theorem timespan_24h : timespanSeconds "24h" = some 86400 := by decide

/-! ## The middleware -/

/-- When the token is truthy the middleware hands it to `jwt.verify`. -/
theorem authenticateToken_of_token {E P : Type} (verify : String → String → Except E P)
    (authHeader : Option String) (t : String) (h : extractToken authHeader = some t)
    (hne : t ≠ "") :
    authenticateToken verify authHeader =
      match verify t SECRET with
      | .error _ => invalidToken t
      | .ok user => authorized t user := by
  simp [authenticateToken, h, truthy, hne]

/-- When the token is `undefined` or empty the middleware answers 401. -/
theorem authenticateToken_of_falsy {E P : Type} (verify : String → String → Except E P)
    (authHeader : Option String) (h : truthy (extractToken authHeader) = false) :
    authenticateToken verify authHeader = accessDenied := by
  simp [authenticateToken, h]

/-- C1: every run of `authenticateToken` ends in exactly one of three outcomes:
no token extracted, 401 'Access denied', `next` not called; a token extracted and
rejected by `jwt.verify`, 403 'Invalid token', `next` not called; a token extracted
and verified with payload `p`, nothing written, `req.user = p`, `next` called once.
Either one response is written or `next` is called once, never both, and `next`
runs exactly when verification succeeded. -/
theorem C1_authenticateToken_outcomes {E P : Type} (verify : String → String → Except E P)
    (authHeader : Option String) :
    ((truthy (extractToken authHeader) = false ∧
        authenticateToken verify authHeader =
          { responses := [⟨401, .error "Access denied"⟩], user := none, nextCalls := 0,
            verifyCalls := [] }) ∨
      (∃ t e, extractToken authHeader = some t ∧ t ≠ "" ∧ verify t SECRET = .error e ∧
        authenticateToken verify authHeader =
          { responses := [⟨403, .error "Invalid token"⟩], user := none, nextCalls := 0,
            verifyCalls := [(t, SECRET)] }) ∨
      (∃ t p, extractToken authHeader = some t ∧ t ≠ "" ∧ verify t SECRET = .ok p ∧
        authenticateToken verify authHeader =
          { responses := [], user := some p, nextCalls := 1, verifyCalls := [(t, SECRET)] })) ∧
    ((authenticateToken verify authHeader).responses.length +
        (authenticateToken verify authHeader).nextCalls = 1) ∧
    (0 < (authenticateToken verify authHeader).nextCalls ↔
      ∃ t p, extractToken authHeader = some t ∧ t ≠ "" ∧ verify t SECRET = .ok p) := by
  cases ht : extractToken authHeader with
  | none =>
    have hf : truthy (extractToken authHeader) = false := by simp [ht, truthy]
    have ho := authenticateToken_of_falsy verify authHeader hf
    refine ⟨Or.inl ⟨by simp [truthy], by rw [ho]; rfl⟩, by rw [ho]; rfl, ?_⟩
    rw [ho]
    simp [accessDenied]
  | some t =>
    by_cases hne : t = ""
    · have hf : truthy (extractToken authHeader) = false := by simp [ht, truthy, hne]
      have ho := authenticateToken_of_falsy verify authHeader hf
      refine ⟨Or.inl ⟨by simp [truthy, hne], by rw [ho]; rfl⟩, by rw [ho]; rfl, ?_⟩
      rw [ho]
      simp [accessDenied, hne]
    · have ho := authenticateToken_of_token verify authHeader t ht hne
      cases hv : verify t SECRET with
      | error e =>
        rw [hv] at ho
        refine ⟨Or.inr (Or.inl ⟨t, e, rfl, hne, hv, by rw [ho]; rfl⟩), by rw [ho]; rfl, ?_⟩
        rw [ho]
        simp [invalidToken, hv]
      | ok p =>
        rw [hv] at ho
        refine ⟨Or.inr (Or.inr ⟨t, p, rfl, hne, hv, by rw [ho]; rfl⟩), by rw [ho]; rfl, ?_⟩
        rw [ho]
        simp [authorized, hne, hv]

/-- C2 (as stated) fails: the header `Basic abc` does not start with `Bearer `, yet
its second field `abc` is handed to `jwt.verify`; the answer is then 403 when
verification fails, and `next` runs when verification succeeds. -/
theorem C2_counterexample :
    ¬ ("Bearer ".data <+: "Basic abc".data) ∧
    (authenticateToken (fun _ _ => (Except.error () : Except Unit Claims))
        (some "Basic abc")).verifyCalls = [("abc", SECRET)] ∧
    (authenticateToken (fun _ _ => (Except.error () : Except Unit Claims))
        (some "Basic abc")).responses = [⟨403, .error "Invalid token"⟩] ∧
    (authenticateToken (fun _ _ => (Except.ok ⟨1, "alice", 0, 86400⟩ : Except Unit Claims))
        (some "Basic abc")).nextCalls = 1 := by
  decide

/-- C2 (amended): when the authorization header is absent, or contains no space, or
its first space ends the header or is followed by another space, `authenticateToken`
answers 401 'Access denied' and calls neither `jwt.verify` nor `next`. -/
theorem C2_missing_token_denied {E P : Type} (verify : String → String → Except E P)
    (authHeader : Option String)
    (h : authHeader = none ∨
      (∃ s, authHeader = some s ∧ ' ' ∉ s.data) ∨
      (∃ a r, authHeader = some (a ++ " " ++ r) ∧ ' ' ∉ a.data ∧
        (r = "" ∨ r.data.head? = some ' '))) :
    (authenticateToken verify authHeader).responses = [⟨401, .error "Access denied"⟩] ∧
    (authenticateToken verify authHeader).verifyCalls = [] ∧
    (authenticateToken verify authHeader).nextCalls = 0 ∧
    (authenticateToken verify authHeader).user = none := by
  have hf : truthy (extractToken authHeader) = false := by
    rcases h with h | ⟨s, h, hs⟩ | ⟨a, r, h, ha, hr⟩
    · subst h; rfl
    · subst h
      by_cases he : s = ""
      · simp [extractToken, he, truthy]
      · simp [extractToken, he, jsSplitSpace, splitSpace_of_no_space _ hs, truthy]
    · subst h
      have h2 := jsSplitSpace_second a "" r ha (by decide) hr
      have e : a ++ " " ++ "" ++ r = a ++ " " ++ r := by
        apply String.ext
        simp [String.data_append]
      rw [e] at h2
      simp [extractToken, append_space_ne_empty, h2, truthy]
  rw [authenticateToken_of_falsy verify authHeader hf]
  exact ⟨rfl, rfl, rfl, rfl⟩

theorem C2_missing_token_denied_witness :
    (authenticateToken (fun _ _ => (Except.ok ⟨1, "alice", 0, 86400⟩ : Except Unit Claims))
        (some "Bearer")).responses = [⟨401, .error "Access denied"⟩] ∧
    (authenticateToken (fun _ _ => (Except.ok ⟨1, "alice", 0, 86400⟩ : Except Unit Claims))
        (some "Bearer")).verifyCalls = [] ∧
    (authenticateToken (fun _ _ => (Except.ok ⟨1, "alice", 0, 86400⟩ : Except Unit Claims))
        (some "Bearer")).nextCalls = 0 ∧
    (authenticateToken (fun _ _ => (Except.ok ⟨1, "alice", 0, 86400⟩ : Except Unit Claims))
        (some "Bearer")).user = none :=
  C2_missing_token_denied _ (some "Bearer") (Or.inr (Or.inl ⟨"Bearer", rfl, by decide⟩))

/-- C9 (as stated) fails: in `Bearer  T` (two spaces) the second field on splitting at
runs of white space is `T`, but the code extracts the empty string and verifies
nothing; in `Bearer<TAB>T` the code finds no second field at all. -/
theorem C9_counterexample :
    specSecondField "Bearer  T" = some "T" ∧
    extractToken (some "Bearer  T") = some "" ∧
    (authenticateToken (fun _ _ => (Except.ok ⟨1, "alice", 0, 86400⟩ : Except Unit Claims))
        (some "Bearer  T")).verifyCalls = [] ∧
    specSecondField "Bearer\tT" = some "T" ∧
    extractToken (some "Bearer\tT") = none := by
  decide

/-- C9 (amended): the token handed to verification is the second field of the header
when it is cut at every single space character: for a header `a ++ " " ++ t ++ r`
with `a` and `t` free of spaces and `r` empty or starting with a space, the extracted
value is `t`, and `jwt.verify` is called with `t` when `t` is not empty and not called
otherwise. In particular `Bearer`, one space, `T` yields `T`. -/
theorem C9_token_is_second_space_field {E P : Type} (verify : String → String → Except E P)
    (a t r : String) (ha : ' ' ∉ a.data) (ht : ' ' ∉ t.data)
    (hr : r = "" ∨ r.data.head? = some ' ') :
    extractToken (some (a ++ " " ++ t ++ r)) = some t ∧
    (authenticateToken verify (some (a ++ " " ++ t ++ r))).verifyCalls =
      if t = "" then [] else [(t, SECRET)] := by
  have hx := extractToken_fields a t r ha ht hr
  refine ⟨hx, ?_⟩
  by_cases he : t = ""
  · have hf : truthy (extractToken (some (a ++ " " ++ t ++ r))) = false := by
      rw [hx]
      simp [truthy, he]
    rw [authenticateToken_of_falsy verify _ hf]
    simp [accessDenied, he]
  · rw [authenticateToken_of_token verify _ t hx he]
    cases verify t SECRET <;> simp [invalidToken, authorized, he]

theorem C9_token_is_second_space_field_witness :
    extractToken (some ("Bearer" ++ " " ++ "abc.def.ghi" ++ "")) = some "abc.def.ghi" ∧
    (authenticateToken (fun _ _ => (Except.error () : Except Unit Claims))
        (some ("Bearer" ++ " " ++ "abc.def.ghi" ++ ""))).verifyCalls =
      if "abc.def.ghi" = "" then [] else [("abc.def.ghi", SECRET)] :=
  C9_token_is_second_space_field _ "Bearer" "abc.def.ghi" "" (by decide) (by decide)
    (Or.inl rfl)

/-! ## Login and register -/

/-- The login handler on a found row whose password matches, with the modelled
`jsonwebtoken` at time `now`: one 200 response carrying a token with expiry
`now + 86400`. -/
theorem login_success (bc : Bcrypt) (codec : Codec) (db : Db) (req : Credentials) (row : UserRow)
    (now : Nat)
    (hrow : db.rows.find? (fun r => decide (r.username = req.username)) = some row)
    (hpw : bc.compareValue req.password row.password = .ok true) :
    login bc (jsonwebtoken codec now) none db req =
      { responses := [⟨200, .session
          (codec.encode ⟨row.id, row.username, now, now + 86400⟩ SECRET) row.username⟩],
        signCalls := [(⟨row.id, row.username⟩, SECRET, "24h")] } := by
  simp [login, Db.getUser, hrow, hpw, jsonwebtoken, timespan_24h]

/-- C3: a token issued by the login handler for the record `row`, presented at the
issuance time as `Bearer T`, makes `authenticateToken` call `next` once with
`req.user.id = row.id` and `req.user.username = row.username` and write no response;
here the token codec inverts on this token under the server key and the token is
non-empty and free of spaces. -/
theorem C3_issue_then_authorize (bc : Bcrypt) (codec : Codec) (db : Db) (req : Credentials)
    (row : UserRow) (now : Nat)
    (hrow : db.rows.find? (fun r => decide (r.username = req.username)) = some row)
    (hpw : bc.compareValue req.password row.password = .ok true)
    (hdec : codec.decode (codec.encode ⟨row.id, row.username, now, now + 86400⟩ SECRET) SECRET =
      some ⟨row.id, row.username, now, now + 86400⟩)
    (hne : codec.encode ⟨row.id, row.username, now, now + 86400⟩ SECRET ≠ "")
    (hns : ' ' ∉ (codec.encode ⟨row.id, row.username, now, now + 86400⟩ SECRET).data) :
    ∃ T user,
      (login bc (jsonwebtoken codec now) none db req).responses =
        [⟨200, .session T row.username⟩] ∧
      user.id = row.id ∧ user.username = row.username ∧
      authenticateToken (jsonwebtoken codec now).verify (some ("Bearer " ++ T)) =
        { responses := [], user := some user, nextCalls := 1, verifyCalls := [(T, SECRET)] } := by
  refine ⟨codec.encode ⟨row.id, row.username, now, now + 86400⟩ SECRET,
    ⟨row.id, row.username, now, now + 86400⟩, ?_, rfl, rfl, ?_⟩
  · rw [login_success bc codec db req row now hrow hpw]
  · rw [authenticateToken_of_token _ _ _ (extractToken_bearer _ hns) hne]
    simp [jsonwebtoken, hdec, authorized]

theorem C3_issue_then_authorize_witness :
    ∃ T user,
      (login sampleBcrypt (jsonwebtoken sampleCodec 100) none sampleDb
          ⟨"alice", some "hunter2"⟩).responses =
        [⟨200, .session T "alice"⟩] ∧
      user.id = 1 ∧ user.username = "alice" ∧
      authenticateToken (jsonwebtoken sampleCodec 100).verify (some ("Bearer " ++ T)) =
        { responses := [], user := some user, nextCalls := 1, verifyCalls := [(T, SECRET)] } :=
  C3_issue_then_authorize sampleBcrypt sampleCodec sampleDb ⟨"alice", some "hunter2"⟩
    ⟨1, "alice", "$2a$10$hunter2", "user", 50⟩ 100 (by decide) (by rfl) (by decide)
    (by decide) (by decide)

/-- C7: the token issued by the login handler at time `t` carries issued-at `t` and
expiry exactly `t + 86400`, and at every time `t1` with `t + 86400 ≤ t1` the
middleware given `Bearer T` answers 403 'Invalid token' and does not call `next`,
although the token decodes (its signature is valid) under the server key. -/
theorem C7_expired_token_rejected (bc : Bcrypt) (codec : Codec) (db : Db) (req : Credentials)
    (row : UserRow) (t t1 : Nat)
    (hrow : db.rows.find? (fun r => decide (r.username = req.username)) = some row)
    (hpw : bc.compareValue req.password row.password = .ok true)
    (hdec : codec.decode (codec.encode ⟨row.id, row.username, t, t + 86400⟩ SECRET) SECRET =
      some ⟨row.id, row.username, t, t + 86400⟩)
    (hne : codec.encode ⟨row.id, row.username, t, t + 86400⟩ SECRET ≠ "")
    (hns : ' ' ∉ (codec.encode ⟨row.id, row.username, t, t + 86400⟩ SECRET).data)
    (hexp : t + 86400 ≤ t1) :
    ∃ T c,
      (login bc (jsonwebtoken codec t) none db req).responses =
        [⟨200, .session T row.username⟩] ∧
      codec.decode T SECRET = some c ∧ c.iat = t ∧ c.exp = t + 86400 ∧
      authenticateToken (jsonwebtoken codec t1).verify (some ("Bearer " ++ T)) =
        { responses := [⟨403, .error "Invalid token"⟩], user := none, nextCalls := 0,
          verifyCalls := [(T, SECRET)] } := by
  refine ⟨codec.encode ⟨row.id, row.username, t, t + 86400⟩ SECRET,
    ⟨row.id, row.username, t, t + 86400⟩, ?_, hdec, rfl, rfl, ?_⟩
  · rw [login_success bc codec db req row t hrow hpw]
  · rw [authenticateToken_of_token _ _ _ (extractToken_bearer _ hns) hne]
    simp [jsonwebtoken, hdec, invalidToken, hexp]

theorem C7_expired_token_rejected_witness :
    ∃ T c,
      (login sampleBcrypt (jsonwebtoken sampleCodec 100) none sampleDb
          ⟨"alice", some "hunter2"⟩).responses =
        [⟨200, .session T "alice"⟩] ∧
      sampleCodec.decode T SECRET = some c ∧ c.iat = 100 ∧ c.exp = 100 + 86400 ∧
      authenticateToken (jsonwebtoken sampleCodec 86500).verify (some ("Bearer " ++ T)) =
        { responses := [⟨403, .error "Invalid token"⟩], user := none, nextCalls := 0,
          verifyCalls := [(T, SECRET)] } :=
  C7_expired_token_rejected sampleBcrypt sampleCodec sampleDb ⟨"alice", some "hunter2"⟩
    ⟨1, "alice", "$2a$10$hunter2", "user", 50⟩ 100 86500 (by decide) (by rfl) (by decide)
    (by decide) (by decide) (by decide)

/-- A lookup in a table without the username finds nothing. -/
theorem find_none_of_fresh (rows : List UserRow) (u : String)
    (h : ∀ r ∈ rows, r.username ≠ u) :
    rows.find? (fun r => decide (r.username = u)) = none := by
  rw [List.find?_eq_none]
  intro r hr
  simpa using h r hr

/-- C4: with the storage lookup working, a login naming an unregistered username and
a login naming a registered username with a secret that does not match its stored
hash get the same outcome: one response 401 'Invalid credentials', and `jwt.sign`
is never called. -/
theorem C4_login_anti_enumeration (bc : Bcrypt) (jwt : Jwt) (db : Db) (r1 r2 : Credentials)
    (row : UserRow) (s : String)
    (h1 : ∀ r ∈ db.rows, r.username ≠ r1.username)
    (h2 : db.rows.find? (fun r => decide (r.username = r2.username)) = some row)
    (hs : r2.password = some s)
    (hwrong : bc.compare s row.password = false) :
    login bc jwt none db r1 = login bc jwt none db r2 ∧
    login bc jwt none db r1 =
      { responses := [⟨401, .error "Invalid credentials"⟩], signCalls := [] } := by
  have e1 : login bc jwt none db r1 =
      { responses := [⟨401, .error "Invalid credentials"⟩], signCalls := [] } := by
    simp [login, Db.getUser, find_none_of_fresh db.rows r1.username h1]
  have e2 : login bc jwt none db r2 =
      { responses := [⟨401, .error "Invalid credentials"⟩], signCalls := [] } := by
    simp [login, Db.getUser, h2, hs, Bcrypt.compareValue, hwrong]
  exact ⟨e1.trans e2.symm, e1⟩

theorem C4_login_anti_enumeration_witness :
    login sampleBcrypt (jsonwebtoken sampleCodec 100) none sampleDb ⟨"bob", some "anything"⟩ =
      login sampleBcrypt (jsonwebtoken sampleCodec 100) none sampleDb
        ⟨"alice", some "wrongpass"⟩ ∧
    login sampleBcrypt (jsonwebtoken sampleCodec 100) none sampleDb ⟨"bob", some "anything"⟩ =
      { responses := [⟨401, .error "Invalid credentials"⟩], signCalls := [] } :=
  C4_login_anti_enumeration sampleBcrypt (jsonwebtoken sampleCodec 100) sampleDb
    ⟨"bob", some "anything"⟩ ⟨"alice", some "wrongpass"⟩
    ⟨1, "alice", "$2a$10$hunter2", "user", 50⟩ "wrongpass" (by decide) (by decide) rfl
    (by decide)

/-- A successful registration appended exactly one row for the user, holding the hash. -/
theorem register_success_db (bc : Bcrypt) (fault : Option String) (now : Nat) (db : Db)
    (u s : String)
    (hreg : (register bc fault now db ⟨u, some s⟩).responses =
      [⟨200, .message "User registered successfully"⟩]) :
    (register bc fault now db ⟨u, some s⟩).db =
      { rows := db.rows ++ [{ id := db.nextId, username := u, password := bc.hash s 10,
                              role := "user", created_at := now }],
        seq := db.nextId } := by
  cases fault with
  | some msg => simp [register, Bcrypt.hashValue, Db.insertUser] at hreg
  | none =>
    by_cases hdup : db.rows.any (fun r => decide (r.username = u)) = true
    · simp [register, Bcrypt.hashValue, Db.insertUser, hdup] at hreg
    · simp [register, Bcrypt.hashValue, Db.insertUser, hdup]

/-- C5: in a table without `u`, a successful `register (u, s)` followed by
`login (u, s)` (storage working) answers 200 with a token and `username = u`, and
the password stored for `u` is `bcrypt.hash(s, 10)` and differs from `s`; the model
of bcrypt satisfies `compare(s, hash(s, 10))` and `hash(s, 10) ≠ s`. -/
theorem C5_register_then_login (bc : Bcrypt) (codec : Codec) (fault : Option String)
    (now1 now2 : Nat) (db : Db) (u s : String)
    (hfresh : ∀ r ∈ db.rows, r.username ≠ u)
    (hcmp : bc.compare s (bc.hash s 10) = true)
    (hhash : bc.hash s 10 ≠ s)
    (hreg : (register bc fault now1 db ⟨u, some s⟩).responses =
      [⟨200, .message "User registered successfully"⟩]) :
    (∃ token, login bc (jsonwebtoken codec now2) none (register bc fault now1 db ⟨u, some s⟩).db
        ⟨u, some s⟩ =
      { responses := [⟨200, .session token u⟩],
        signCalls := [(⟨db.nextId, u⟩, SECRET, "24h")] }) ∧
    (∃ row, (register bc fault now1 db ⟨u, some s⟩).db.rows.find?
        (fun r => decide (r.username = u)) = some row ∧
      row.password = bc.hash s 10 ∧ row.password ≠ s ∧ row.role = "user") := by
  have hdb := register_success_db bc fault now1 db u s hreg
  have hfind : (register bc fault now1 db ⟨u, some s⟩).db.rows.find?
      (fun r => decide (r.username = u)) =
      some { id := db.nextId, username := u, password := bc.hash s 10, role := "user",
             created_at := now1 } := by
    rw [hdb]
    simp [List.find?_append, find_none_of_fresh db.rows u hfresh]
  refine ⟨⟨codec.encode ⟨db.nextId, u, now2, now2 + 86400⟩ SECRET, ?_⟩,
    ⟨_, hfind, rfl, hhash, rfl⟩⟩
  exact login_success bc codec _ ⟨u, some s⟩ _ now2 hfind (by simp [Bcrypt.compareValue, hcmp])

theorem C5_register_then_login_witness :
    (∃ token, login sampleBcrypt (jsonwebtoken sampleCodec 100) none
        (register sampleBcrypt none 60 sampleDb ⟨"bob", some "s3cret"⟩).db
        ⟨"bob", some "s3cret"⟩ =
      { responses := [⟨200, .session token "bob"⟩],
        signCalls := [(⟨sampleDb.nextId, "bob"⟩, SECRET, "24h")] }) ∧
    (∃ row, (register sampleBcrypt none 60 sampleDb ⟨"bob", some "s3cret"⟩).db.rows.find?
        (fun r => decide (r.username = "bob")) = some row ∧
      row.password = sampleBcrypt.hash "s3cret" 10 ∧ row.password ≠ "s3cret" ∧
      row.role = "user") :=
  C5_register_then_login sampleBcrypt sampleCodec none 60 100 sampleDb "bob" "s3cret"
    (by decide) (by decide) (by decide) (by decide)

/-- C6: registering a username that is already in the table writes one response with
status 500 and an error body (the unique-constraint message of the storage engine when
no other storage fault occurs), never the success message, and leaves the table, and so
the existing record, exactly as it was. -/
theorem C6_duplicate_register_rejected (bc : Bcrypt) (fault : Option String) (now : Nat)
    (db : Db) (u s : String) (hdup : ∃ r ∈ db.rows, r.username = u) :
    (register bc fault now db ⟨u, some s⟩).db = db ∧
    (∃ msg, (register bc fault now db ⟨u, some s⟩).responses = [⟨500, .error msg⟩]) ∧
    (register bc none now db ⟨u, some s⟩).responses = [⟨500, .error uniqueViolation⟩] ∧
    (register bc none now db ⟨u, some s⟩).db = db := by
  have hany : db.rows.any (fun r => decide (r.username = u)) = true := by
    obtain ⟨r, hr, hu⟩ := hdup
    simp only [List.any_eq_true]
    exact ⟨r, hr, by simp [hu]⟩
  cases fault with
  | some msg => simp [register, Bcrypt.hashValue, Db.insertUser, hany]
  | none => simp [register, Bcrypt.hashValue, Db.insertUser, hany]

theorem C6_duplicate_register_rejected_witness :
    (register sampleBcrypt none 60 sampleDb ⟨"alice", some "other"⟩).db = sampleDb ∧
    (∃ msg, (register sampleBcrypt none 60 sampleDb ⟨"alice", some "other"⟩).responses =
      [⟨500, .error msg⟩]) ∧
    (register sampleBcrypt none 60 sampleDb ⟨"alice", some "other"⟩).responses =
      [⟨500, .error uniqueViolation⟩] ∧
    (register sampleBcrypt none 60 sampleDb ⟨"alice", some "other"⟩).db = sampleDb :=
  C6_duplicate_register_rejected sampleBcrypt none 60 sampleDb "alice" "other"
    ⟨⟨1, "alice", "$2a$10$hunter2", "user", 50⟩, by decide, rfl⟩

/-- C8 (the code at the failing input): a login request for a registered username
whose body carries no password makes `bcrypt.compare` reject inside the callback of
`db.get`; the handler then writes no response at all. -/
theorem C8_login_without_password_writes_nothing (bc : Bcrypt) (jwt : Jwt) (db : Db)
    (u : String) (row : UserRow)
    (hrow : db.rows.find? (fun r => decide (r.username = u)) = some row) :
    (login bc jwt none db ⟨u, none⟩).responses = [] := by
  simp [login, Db.getUser, hrow, Bcrypt.compareValue]

theorem C8_login_without_password_writes_nothing_witness :
    (login sampleBcrypt (jsonwebtoken sampleCodec 100) none sampleDb ⟨"alice", none⟩).responses
      = [] :=
  C8_login_without_password_writes_nothing sampleBcrypt (jsonwebtoken sampleCodec 100) sampleDb
    "alice" ⟨1, "alice", "$2a$10$hunter2", "user", 50⟩ (by decide)

/-! ## The asset form -/

/-- C10 (as stated) fails: with all three required fields filled, the script
initialised and the server answering ok with a JSON object, one run of `saveAsset`
issues two requests, the POST to `/assets` and then the GET of `fetchAssets`; and
with the top-level declarations of the script uninitialised the same form issues no
request at all. -/
theorem C10_counterexample :
    jsTrim "A1" ≠ "" ∧ jsTrim "Laptop" ≠ "" ∧ jsTrim "S1" ≠ "" ∧
    (saveAsset ⟨"", .reply true (some (.value none none)), .networkError⟩
        ⟨"A1", "Laptop", "S1", "Laptop", "", "IT", "Active", "", none⟩
        ⟨true, -1, [], false⟩).requests.map (fun r => (r.method, r.target)) =
      [(.POST, .assets), (.GET, .assetsSearch "")] ∧
    (saveAsset ⟨"", .reply true (some (.value none none)), .networkError⟩
        ⟨"A1", "Laptop", "S1", "Laptop", "", "IT", "Active", "", none⟩
        ⟨false, -1, [], false⟩).requests = [] := by
  decide

/-- C10 (amended): when the asset ID, the name or the serial number is empty after
trimming, `saveAsset` issues no request and leaves `editIndex`, `currentAssets` and the
modal as they were. Otherwise, when the top-level declarations of the script are
uninitialised, it issues no request either and leaves the page as it was. Otherwise
its first request is the save request, PUT to `/assets/<id of currentAssets[editIndex]>`
when `editIndex` is not -1 and that element exists and POST to `/assets` otherwise; no
other request follows, except one GET `/assets?search=..` (the refresh of
`fetchAssets`) when the reply to the save request is ok and its JSON body parses to a
value other than `null`. `editIndex` is never changed. -/
theorem C10_saveAsset_requests (env : Env) (form : Form) (page : Page) :
    (saveAsset env form page).page.editIndex = page.editIndex ∧
    if jsTrim form.assetId = "" ∨ jsTrim form.assetName = "" ∨ jsTrim form.serial = "" then
      (saveAsset env form page).requests = [] ∧ (saveAsset env form page).page = page
    else if page.initialised = false then
      (saveAsset env form page).requests = [] ∧ (saveAsset env form page).page = page
    else
      ∃ first rest,
        (saveAsset env form page).requests = first :: rest ∧
        (first.method, first.target) =
          (match page.editedAsset with
           | some asset =>
             if page.editIndex ≠ -1 then (Method.PUT, Target.asset asset.id)
             else (Method.POST, Target.assets)
           | none => (Method.POST, Target.assets)) ∧
        rest =
          (match env.saveReply with
           | .reply true (some (.value _ _)) => [⟨.GET, .assetsSearch env.search, []⟩]
           | _ => []) := by
  have hfetch : ∀ p : Page, p.initialised = true →
      (fetchAssets env p).1 = [⟨.GET, .assetsSearch env.search, []⟩] ∧
      (fetchAssets env p).2.editIndex = p.editIndex := by
    intro p hp
    unfold fetchAssets
    simp only [hp, Bool.not_true, Bool.false_eq_true, if_false]
    split <;> exact ⟨rfl, rfl⟩
  have hfirst : ((saveRequest form page).method, (saveRequest form page).target) =
      (match page.editedAsset with
       | some asset =>
         if page.editIndex ≠ -1 then (Method.PUT, Target.asset asset.id)
         else (Method.POST, Target.assets)
       | none => (Method.POST, Target.assets)) := by
    unfold saveRequest
    cases page.editedAsset <;> by_cases he : page.editIndex = -1 <;> simp [he]
  by_cases hg : jsTrim form.assetId = "" ∨ jsTrim form.assetName = "" ∨ jsTrim form.serial = ""
  · simp only [saveAsset, hg, if_true, and_self]
  · rw [if_neg hg]
    by_cases hi : page.initialised = false
    · rw [if_pos hi]
      simp [saveAsset, hg, hi]
    · rw [if_neg hi]
      have hi1 : page.initialised = true := by simpa using hi
      cases hr : env.saveReply with
      | networkError =>
        refine ⟨by simp [saveAsset, hg, hi1, hr], saveRequest form page, [], ?_, hfirst, rfl⟩
        simp [saveAsset, hg, hi1, hr]
      | reply ok json =>
        cases json with
        | none =>
          refine ⟨by simp [saveAsset, hg, hi1, hr], saveRequest form page, [], ?_, hfirst, ?_⟩
          · simp [saveAsset, hg, hi1, hr]
          · cases ok <;> rfl
        | some j =>
          cases j with
          | null =>
            refine ⟨by simp [saveAsset, hg, hi1, hr], saveRequest form page, [], ?_, hfirst,
              ?_⟩
            · simp [saveAsset, hg, hi1, hr]
            · cases ok <;> rfl
          | value message error =>
            cases ok with
            | false =>
              refine ⟨by simp [saveAsset, hg, hi1, hr], saveRequest form page, [], ?_, hfirst,
                rfl⟩
              simp [saveAsset, hg, hi1, hr]
            | true =>
              have hf := hfetch ⟨true, page.editIndex, page.currentAssets, true⟩ rfl
              refine ⟨?_, saveRequest form page, [⟨.GET, .assetsSearch env.search, []⟩], ?_,
                hfirst, rfl⟩
              · simp [saveAsset, hg, hi1, hr, hf.2]
              · simp [saveAsset, hg, hi1, hr, hf.1]

end AssetGuard
